import Mathlib

/-!
Verification development for the clean-arch-go product service.

The repository exposes create/list operations for a `Product` entity.
Listing goes through a pagination query builder (the `go-paginate`
library, whose source is not part of this repository: its behavior is
modelled from the specification), a data-access layer executing a
SELECT and a COUNT against the store, and a response assembler wrapping
items plus total into a generic pagination envelope.
-/

namespace CleanArch

/-- Error values: Go `error` results are modelled as an optional
message-carrying value. -/
structure Err where
  msg : String
deriving DecidableEq, Repr

/-- Product entity, from `core/domain/product.go`: identifier, name,
price and description.  The Go `float32` price is modelled as a rational
number; only equality and pass-through of the value matter to the
claims. -/
structure Product where
  id : Int
  name : String
  price : Rat
  description : String
deriving DecidableEq, Repr

/-- Go zero value of `Product`, i.e. `domain.Product{}`. -/
def zeroProduct : Product := ⟨0, "", 0, ""⟩

/-- Pagination request parameters, from `core/dto` as described by the
spec: page number, items per page, sort field, descending flag and
free-text search term. -/
structure PaginationRequestParams where
  page : Nat
  itemsPerPage : Nat
  sort : String
  descending : Bool
  search : String
deriving DecidableEq, Repr

/-- Generic pagination envelope, from `core/domain`: items plus total.
A Go slice distinguishes `nil` from the empty slice, so items are an
optional list (`none` models the nil slice). -/
structure Pagination (T : Type) where
  items : Option T
  total : Int
deriving DecidableEq, Repr

/-- Case-insensitive character used for search matching. -/
def lowChars (s : String) : List Char := s.data.map Char.toLower

/-- Boolean test that the first character list starts the second. -/
def chListBegins : List Char → List Char → Bool
  | [], _ => true
  | _ :: _, [] => false
  | a :: as, b :: bs => a = b && chListBegins as bs

/-- Boolean test that `needle` occurs as a contiguous run inside `hay`. -/
def chListHasSub (hay needle : List Char) : Bool :=
  match hay with
  | [] => decide (needle = [])
  | _ :: t => chListBegins needle hay || chListHasSub t needle

/-- Case-insensitive substring test between two strings. -/
def containsCI (hay term : String) : Bool :=
  chListHasSub (lowChars hay) (lowChars term)

/-- Structured SELECT statement produced by the query builder: search
filter, sort column and direction, offset and limit. -/
structure BuiltQuery where
  base : String
  searchTerm : String
  searchCols : List String
  sortField : String
  sortDesc : Bool
  offset : Nat
  limit : Nat
deriving DecidableEq, Repr

/-- Structured COUNT statement produced by the query builder: the same
search filter as the SELECT, no sort, offset or limit. -/
structure BuiltCount where
  base : String
  searchTerm : String
  searchCols : List String
deriving DecidableEq, Repr

/-- Modelled from the spec: the `Paginate(base)
.Page(p).Desc(d).Sort(s).RowsPerPage(n).SearchBy(term, cols...).Query()`
chain, whose source is not in this repository.  Per spec section 4.1 it
produces a bounded SELECT with offset `(page - 1) * itemsPerPage` and
limit `itemsPerPage`, and a COUNT carrying the same search filter; it
errors when the base query is malformed, when no rows-per-page value is
given, or when the sort field is not in the allow-list of columns. -/
def paginateBuild (base : String) (allowed : List String)
    (searchCols : List String) (req : PaginationRequestParams) :
    Except Err (BuiltQuery × BuiltCount) :=
  if base = "" then
    .error ⟨"malformed base query"⟩
  else if req.itemsPerPage = 0 then
    .error ⟨"rows per page is required"⟩
  else if allowed.contains req.sort then
    .ok
      ({ base := base
         searchTerm := req.search
         searchCols := searchCols
         sortField := req.sort
         sortDesc := req.descending
         offset := (req.page - 1) * req.itemsPerPage
         limit := req.itemsPerPage },
       { base := base
         searchTerm := req.search
         searchCols := searchCols })
  else
    .error ⟨"invalid sort column"⟩

/-- Columns of the `product` table, per the migration contract in spec
section 6: `product(id, name, price, description)`. -/
def productColumns : List String := ["id", "name", "price", "description"]

/-- Text rendering of one column of a product row, used by the search
filter semantics. -/
def colValue (p : Product) : String → String
  | "id" => toString p.id
  | "name" => p.name
  | "price" => toString p.price
  | "description" => p.description
  | _ => ""

/-- Modelled from the spec: a row matches a search term when some
searchable column contains the term case-insensitively (spec section
4.1: case-insensitive partial match across the configured searchable
columns, combined with OR). -/
def rowMatches (term : String) (cols : List String) (p : Product) : Bool :=
  cols.any (fun c => containsCI (colValue p c) term)

/-- Modelled from the spec: applying the search filter to the table; the
empty term applies no filter (spec section 8: empty search term means no
search filter). -/
def applyFilter (term : String) (cols : List String)
    (table : List Product) : List Product :=
  if term = "" then table else table.filter (rowMatches term cols)

/-- Boolean order on products by one column, ascending. -/
def fieldLe (field : String) (a b : Product) : Bool :=
  match field with
  | "id" => decide (a.id ≤ b.id)
  | "name" => decide (a.name ≤ b.name)
  | "price" => decide (a.price ≤ b.price)
  | "description" => decide (a.description ≤ b.description)
  | _ => true

/-- Order selected by the built query: by the sort column, flipped when
descending. -/
def ordFor (field : String) (desc : Bool) (a b : Product) : Bool :=
  if desc then fieldLe field b a else fieldLe field a b

/-- Insertion into a list sorted by a boolean order. -/
def insertBy (le : Product → Product → Bool) (x : Product) :
    List Product → List Product
  | [] => [x]
  | y :: ys => if le x y then x :: y :: ys else y :: insertBy le x ys

/-- Insertion sort of products by a boolean order. -/
def sortProducts (le : Product → Product → Bool) :
    List Product → List Product
  | [] => []
  | x :: xs => insertBy le x (sortProducts le xs)

/-- Modelled from the spec: relational semantics of the built SELECT
against a table — filter by search, order by the sort column and
direction, then apply offset and limit (spec sections 4.1 and 6). -/
def evalSelect (q : BuiltQuery) (table : List Product) : List Product :=
  (((applyFilter q.searchTerm q.searchCols table)
      |> sortProducts (ordFor q.sortField q.sortDesc)).drop q.offset).take q.limit

/-- Modelled from the spec: relational semantics of the built COUNT
against a table — the number of rows passing the same search filter
(spec section 4.1). -/
def evalCount (c : BuiltCount) (table : List Product) : Nat :=
  (applyFilter c.searchTerm c.searchCols table).length

/-- Calls the repository sends to the store during a fetch: the bounded
SELECT via `db.Query` and the COUNT via `db.QueryRow`. -/
inductive StoreCall where
  | select (q : BuiltQuery)
  | count (c : BuiltCount)
deriving DecidableEq, Repr

/-- Abstract store behavior seen by `repository.Fetch`: executing the
SELECT either fails or yields a list of rows, where scanning each row
either fails or yields a product; executing the COUNT either fails or
yields the total.  This models `db.Query`, `rows.Next`/`rows.Scan` and
`db.QueryRow(...).Scan` from `adapter/postgres`. -/
structure FetchStore where
  execQuery : BuiltQuery → Except Err (List (Except Err Product))
  execCount : BuiltCount → Except Err Int

/-- Outcome of `repository.Fetch`: the Go pair `(*domain.Pagination, error)`
plus the trace of queries actually sent to the store. -/
structure FetchOutcome where
  result : Option (Pagination (List Product))
  error : Option Err
  calls : List StoreCall
deriving DecidableEq, Repr

/-- Embedding of `repository.Fetch` (adapter/postgres/productrepository):
build the two queries with `paginate.Paginate("SELECT * FROM product")
... .SearchBy(search, "name", "description")`; on build error return
`(nil, err)` without touching the store; otherwise run the SELECT
(aborting on execution error), scan each row — the Go code ignores the
error returned by `rows.Scan`, so a failed scan leaves the freshly
created zero-valued `domain.Product{}` which is still appended — then
run the COUNT (aborting on error), and return the envelope with the
accumulated items (initialised as the non-nil empty slice
`[]domain.Product{}`) and the total. -/
def repositoryFetch (db : FetchStore) (pagination : PaginationRequestParams) :
    FetchOutcome :=
  match paginateBuild "SELECT * FROM product" productColumns
      ["name", "description"] pagination with
  | .error e => { result := none, error := some e, calls := [] }
  | .ok (query, queryCount) =>
    match db.execQuery query with
    | .error e =>
        { result := none, error := some e, calls := [.select query] }
    | .ok rows =>
      let products : List Product :=
        rows.map (fun r => match r with
          | .ok p => p
          | .error _ => zeroProduct)
      match db.execCount queryCount with
      | .error e =>
          { result := none, error := some e
            calls := [.select query, .count queryCount] }
      | .ok total =>
          { result := some { items := some products, total := total }
            error := none
            calls := [.select query, .count queryCount] }

/-- Store whose behavior is the relational semantics of the queries over
a fixed table: the SELECT yields the page rows (each scanning cleanly)
and the COUNT yields the number of filtered rows.  Modelled from the
storage contract of the spec (section 6). -/
def tableStore (table : List Product) : FetchStore where
  execQuery := fun q => .ok ((evalSelect q table).map .ok)
  execCount := fun c => .ok (Int.ofNat (evalCount c table))

/-- Create request body, from `core/dto`: the three user-supplied
fields. -/
structure CreateProductRequest where
  name : String
  price : Rat
  description : String
deriving DecidableEq, Repr

/-- State of the `product` table for the insert path: existing rows and
the next value of the `id serial` column. -/
structure DbState where
  rows : List Product
  nextId : Int
deriving DecidableEq, Repr

/-- Outcome of `repository.Create`: the resulting table state, the Go
pair `(*domain.Product, error)`, and the number of round trips made to
the store. -/
structure CreateOutcome where
  state : DbState
  result : Option Product
  error : Option Err
  roundTrips : Nat
deriving DecidableEq, Repr

/-- Embedding of `repository.Create`
(adapter/postgres/productrepository/create.go, quoted in the README):
one `db.QueryRow` executing `INSERT INTO product (name, price,
description) VALUES ($1, $2, $3) returning *` and scanning the returned
row into `product.ID, product.Name, product.Price, product.Description`.
`storeFail` models a storage failure of that single round trip: on
failure the code returns `(nil, err)`; on success the server assigns the
next serial identifier and the full inserted row is returned. -/
def repositoryCreate (st : DbState) (storeFail : Option Err)
    (productRequest : CreateProductRequest) : CreateOutcome :=
  match storeFail with
  | some e =>
      { state := st, result := none, error := some e, roundTrips := 1 }
  | none =>
      let inserted : Product :=
        { id := st.nextId
          name := productRequest.name
          price := productRequest.price
          description := productRequest.description }
      { state := { rows := st.rows ++ [inserted], nextId := st.nextId + 1 }
        result := some inserted
        error := none
        roundTrips := 1 }

/-- Embedding of the shared shape of the usecase methods
(core/usecase/productusecase): `x, err := repository.M(...); if err !=
nil { return nil, err }; return x, err-or-nil`.  Go multi-returns are
modelled as a pair of options. -/
def usecasePass {α : Type} (res : Option α × Option Err) :
    Option α × Option Err :=
  match res.2 with
  | some e => (none, some e)
  | none => res

/-- Embedding of `usecase.Create` (core/usecase/productusecase/create.go):
delegate to the repository, return `(nil, err)` on error, else the
product from the repository. -/
def usecaseCreate
    (repoCreate : Option CreateProductRequest → Option Product × Option Err)
    (productRequest : Option CreateProductRequest) :
    Option Product × Option Err :=
  usecasePass (repoCreate productRequest)

/-- Embedding of `usecase.Fetch` (core/usecase/productusecase/fetch.go):
delegate to the repository, return `(nil, err)` on error, else the
pagination envelope from the repository. -/
def usecaseFetch
    (repoFetch : PaginationRequestParams →
      Option (Pagination (List Product)) × Option Err)
    (paginationRequest : PaginationRequestParams) :
    Option (Pagination (List Product)) × Option Err :=
  usecasePass (repoFetch paginationRequest)

/-- Events the HTTP Create handler performs on the response writer and
the usecase: writing a status header, writing raw bytes, calling the
usecase (recorded with the request pointer it passes, `none` = nil), and
JSON-encoding a possibly-nil product into the response. -/
inductive RespEvent where
  | writeHeader (code : Nat)
  | write (s : String)
  | callUsecase (req : Option CreateProductRequest)
  | encode (product : Option Product)
deriving DecidableEq, Repr

/-- Embedding of the HTTP `service.Create` handler
(adapter/http/productservice): decode the body; if decoding errored,
write status 500 and the error message — without returning — then call
`usecase.Create(productRequest)` (nil when decoding failed); if that
errored, again write status 500 and the message — without returning —
and finally JSON-encode the resulting product into the same response.
The handler is a trace of its response/usecase actions; the usecase is
abstract. -/
def serviceCreate
    (decodeResult : Option CreateProductRequest × Option Err)
    (usecase : Option CreateProductRequest → Option Product × Option Err) :
    List RespEvent :=
  let productRequest := decodeResult.1
  let decodeEvents : List RespEvent :=
    match decodeResult.2 with
    | some e => [.writeHeader 500, .write e.msg]
    | none => []
  let (product, err2) := usecase productRequest
  let usecaseEvents : List RespEvent :=
    match err2 with
    | some e => [.writeHeader 500, .write e.msg]
    | none => []
  decodeEvents ++ [.callUsecase productRequest] ++ usecaseEvents
    ++ [.encode product]

/-- JSON rendering of the encoded product as `encoding/json` would write
it: `null` for a nil pointer, an object otherwise, each followed by a
newline. -/
def encodeJSON : Option Product → String
  | none => "null\n"
  | some p =>
      "\x7b\"id\":" ++ toString p.id ++ ",\"name\":\"" ++ p.name
        ++ "\",\"price\":" ++ toString p.price ++ ",\"description\":\""
        ++ p.description ++ "\"\x7d\n"

/-- Effective HTTP status of a trace: the code of the first
`WriteHeader`, or 200 when data is written first (the implicit Go
`WriteHeader(200)`); later `WriteHeader` calls are ignored by
`net/http`. -/
def statusOf : List RespEvent → Nat
  | [] => 200
  | .writeHeader c :: _ => c
  | .write _ :: _ => 200
  | .encode _ :: _ => 200
  | .callUsecase _ :: t => statusOf t

/-- Response body of a trace: concatenation of everything written. -/
def bodyOf : List RespEvent → String
  | [] => ""
  | .write s :: t => s ++ bodyOf t
  | .encode p :: t => encodeJSON p ++ bodyOf t
  | .writeHeader _ :: t => bodyOf t
  | .callUsecase _ :: t => bodyOf t

/-- Boolean test that the string `s` begins with `p`. -/
def strBegins (s p : String) : Bool := chListBegins p.data s.data

/-- JSON object rendering of one product, without a trailing newline,
used inside the items array of the pagination envelope. -/
def encodeProductFields (p : Product) : String :=
  "\x7b\"id\":" ++ toString p.id ++ ",\"name\":\"" ++ p.name
    ++ "\",\"price\":" ++ toString p.price ++ ",\"description\":\""
    ++ p.description ++ "\"\x7d"

/-- JSON rendering of the items field: `null` for the nil slice, an
array otherwise. -/
def encodeItems : Option (List Product) → String
  | none => "null"
  | some l => "[" ++ String.intercalate "," (l.map encodeProductFields) ++ "]"

/-- JSON rendering of the encoded pagination envelope as `encoding/json`
would write it: `null` for a nil pointer, an object otherwise, each
followed by a newline. -/
def encodePage : Option (Pagination (List Product)) → String
  | none => "null\n"
  | some pg =>
      "\x7b\"items\":" ++ encodeItems pg.items ++ ",\"total\":"
        ++ toString pg.total ++ "\x7d\n"

/-- Events the HTTP Fetch handler performs on the response writer and
the usecase, mirroring `RespEvent` with the fetch payload types. -/
inductive FetchEvent where
  | writeHeader (code : Nat)
  | write (s : String)
  | callUsecase (req : Option PaginationRequestParams)
  | encode (page : Option (Pagination (List Product)))
deriving DecidableEq, Repr

/-- Modelled from the spec: the HTTP `service.Fetch` handler
(adapter/http/productservice/fetch.go) is absent from src; the README
states both service handlers have essentially the same implementation,
the difference being the delegated usecase call, and spec section 7 maps
every error uniformly to a 500 response with the message as plain text.
So: decode the pagination parameters; on error write status 500 and the
message — without returning — then call `usecase.Fetch` (nil parameters
when decoding failed); on error again write status 500 and the message —
without returning — and finally JSON-encode the resulting envelope into
the same response. -/
def serviceFetch
    (decodeResult : Option PaginationRequestParams × Option Err)
    (usecase : Option PaginationRequestParams →
      Option (Pagination (List Product)) × Option Err) :
    List FetchEvent :=
  let paginationRequest := decodeResult.1
  let decodeEvents : List FetchEvent :=
    match decodeResult.2 with
    | some e => [.writeHeader 500, .write e.msg]
    | none => []
  let (page, err2) := usecase paginationRequest
  let usecaseEvents : List FetchEvent :=
    match err2 with
    | some e => [.writeHeader 500, .write e.msg]
    | none => []
  decodeEvents ++ [.callUsecase paginationRequest] ++ usecaseEvents
    ++ [.encode page]

/-- Effective HTTP status of a fetch-handler trace: the code of the
first `WriteHeader`, or 200 when data is written first; later
`WriteHeader` calls are ignored by `net/http`. -/
def statusOfFetch : List FetchEvent → Nat
  | [] => 200
  | .writeHeader c :: _ => c
  | .write _ :: _ => 200
  | .encode _ :: _ => 200
  | .callUsecase _ :: t => statusOfFetch t

/-- Response body of a fetch-handler trace: concatenation of everything
written. -/
def bodyOfFetch : List FetchEvent → String
  | [] => ""
  | .write s :: t => s ++ bodyOfFetch t
  | .encode p :: t => encodePage p ++ bodyOfFetch t
  | .writeHeader _ :: t => bodyOfFetch t
  | .callUsecase _ :: t => bodyOfFetch t

/-- Membership after inserting into a sorted list. -/
theorem mem_insertBy {le : Product → Product → Bool} {x a : Product}
    {l : List Product} (h : x ∈ insertBy le a l) : x = a ∨ x ∈ l := by
  induction l with
  | nil =>
    simp [insertBy] at h
    simp [h]
  | cons y ys ih =>
    simp only [insertBy] at h
    split at h
    · simpa using h
    · simp only [List.mem_cons] at h
      rcases h with h | h
      · exact Or.inr (by simp [h])
      · rcases ih h with h1 | h1
        · exact Or.inl h1
        · exact Or.inr (by simp [h1])

/-- Sorting products does not introduce new elements. -/
theorem mem_sortProducts {le : Product → Product → Bool} {x : Product}
    {l : List Product} (h : x ∈ sortProducts le l) : x ∈ l := by
  induction l with
  | nil => simp [sortProducts] at h
  | cons y ys ih =>
    simp only [sortProducts] at h
    rcases mem_insertBy h with h1 | h1
    · simp [h1]
    · simp [ih h1]

/-- Every row delivered by the SELECT semantics passed the search
filter. -/
theorem mem_evalSelect {q : BuiltQuery} {table : List Product} {x : Product}
    (h : x ∈ evalSelect q table) :
    x ∈ applyFilter q.searchTerm q.searchCols table := by
  unfold evalSelect at h
  exact mem_sortProducts (List.drop_subset _ _ (List.take_subset _ _ h))

/-- Shape of the two statements produced by a successful build with the
arguments used by `repository.Fetch`. -/
theorem buildFields (req : PaginationRequestParams)
    (q : BuiltQuery) (qc : BuiltCount)
    (hbuild : paginateBuild "SELECT * FROM product" productColumns
      ["name", "description"] req = .ok (q, qc)) :
    q = { base := "SELECT * FROM product", searchTerm := req.search,
          searchCols := ["name", "description"], sortField := req.sort,
          sortDesc := req.descending,
          offset := (req.page - 1) * req.itemsPerPage,
          limit := req.itemsPerPage } ∧
    qc = { base := "SELECT * FROM product", searchTerm := req.search,
           searchCols := ["name", "description"] } := by
  unfold paginateBuild at hbuild
  split_ifs at hbuild with h1 h2 h3
  simp only [Except.ok.injEq, Prod.mk.injEq] at hbuild
  exact ⟨hbuild.1.symm, hbuild.2.symm⟩

/-- The row filter over the searchable columns of the product table is
the OR of the two case-insensitive column matches. -/
theorem rowMatches_name_desc (term : String) (p : Product) :
    rowMatches term ["name", "description"] p
      = (containsCI p.name term || containsCI p.description term) := by
  simp [rowMatches, colValue]

/-- A character list begins with any of its own prefixes. -/
theorem chListBegins_append (p s : List Char) :
    chListBegins p (p ++ s) = true := by
  induction p with
  | nil => rfl
  | cons a as ih => simp [chListBegins, ih]

/-- A concatenation begins with its first part. -/
theorem strBegins_append (p s : String) : strBegins (p ++ s) p = true := by
  unfold strBegins
  rw [String.data_append]
  exact chListBegins_append _ _

/-- The JSON encoder always writes at least one character. -/
theorem encodeJSON_length (p : Option Product) : 0 < (encodeJSON p).length := by
  cases p with
  | none => decide
  | some p =>
    have h6 : ("\x7b\"id\":" : String).length = 6 := by decide
    simp [encodeJSON, String.length_append, h6]

/-- The JSON encoder of the pagination envelope always writes at least
one character. -/
theorem encodePage_length (pg : Option (Pagination (List Product))) :
    0 < (encodePage pg).length := by
  cases pg with
  | none => decide
  | some pg =>
    have h9 : ("\x7b\"items\":" : String).length = 9 := by decide
    simp [encodePage, String.length_append, h9]

/-- Claim C1: for every valid pagination request (page at least 1, a
positive items-per-page), the SELECT statement produced by the query
builder with the arguments used in the repository Fetch applies offset
`(page - 1) * itemsPerPage` and limit `itemsPerPage` exactly, and that
SELECT is the first statement Fetch sends to the store. -/
theorem c1_offset_and_limit (req : PaginationRequestParams)
    (q : BuiltQuery) (qc : BuiltCount)
    (_hpage : 1 ≤ req.page) (_hitems : 1 ≤ req.itemsPerPage)
    (hbuild : paginateBuild "SELECT * FROM product" productColumns
      ["name", "description"] req = .ok (q, qc)) :
    q.offset = (req.page - 1) * req.itemsPerPage ∧
    q.limit = req.itemsPerPage ∧
    ∀ db : FetchStore,
      (repositoryFetch db req).calls.head? = some (.select q) := by
  obtain ⟨hq, hqc⟩ := buildFields req q qc hbuild
  refine ⟨by rw [hq], by rw [hq], ?_⟩
  intro db
  unfold repositoryFetch
  rw [hbuild]
  rcases hx : db.execQuery q with e | rows
  · simp [hx]
  · rcases hc : db.execCount qc with e | total <;> simp [hx, hc]

/-- Witness for C1 at page 3, itemsPerPage 10, sort name: the offset is
20 and the limit is 10. -/
theorem c1_offset_and_limit_witness :
    (1 ≤ 3 ∧ 1 ≤ 10) ∧
    ({ base := "SELECT * FROM product", searchTerm := "",
       searchCols := ["name", "description"], sortField := "name",
       sortDesc := false, offset := 20, limit := 10 } : BuiltQuery).offset
      = (3 - 1) * 10 ∧
    ({ base := "SELECT * FROM product", searchTerm := "",
       searchCols := ["name", "description"], sortField := "name",
       sortDesc := false, offset := 20, limit := 10 } : BuiltQuery).limit
      = 10 ∧
    (repositoryFetch (tableStore [])
        { page := 3, itemsPerPage := 10, sort := "name", descending := false,
          search := "" }).calls.head?
      = some (.select
          { base := "SELECT * FROM product", searchTerm := "",
            searchCols := ["name", "description"], sortField := "name",
            sortDesc := false, offset := 20, limit := 10 }) := by
  have h := c1_offset_and_limit
    { page := 3, itemsPerPage := 10, sort := "name", descending := false,
      search := "" }
    { base := "SELECT * FROM product", searchTerm := "",
      searchCols := ["name", "description"], sortField := "name",
      sortDesc := false, offset := 20, limit := 10 }
    { base := "SELECT * FROM product", searchTerm := "",
      searchCols := ["name", "description"] }
    (by decide) (by decide) rfl
  exact ⟨⟨by decide, by decide⟩, h.1, h.2.1, h.2.2 (tableStore [])⟩

/-- Claim C2: for every pagination request whose sort field is not in
the allow-list of product columns, the build in the repository Fetch
fails with a validation error, the result is nil, and no query is ever
sent to the store (the trace of store calls is empty). -/
theorem c2_unknown_sort (req : PaginationRequestParams) (db : FetchStore)
    (h : req.sort ∉ productColumns) :
    (repositoryFetch db req).result = none ∧
    (repositoryFetch db req).error.isSome = true ∧
    (repositoryFetch db req).calls = [] := by
  have hc : productColumns.contains req.sort = false := by
    cases hcc : productColumns.contains req.sort
    · rfl
    · exact absurd (List.mem_of_elem_eq_true hcc) h
  unfold repositoryFetch paginateBuild
  rw [hc]
  rcases eq_or_ne req.itemsPerPage 0 with hip | hip <;> simp [hip]

/-- Witness for C2: a request sorting by the unknown column `evil` is
rejected before any store interaction. -/
theorem c2_unknown_sort_witness :
    (repositoryFetch (tableStore [])
        { page := 1, itemsPerPage := 10, sort := "evil", descending := false,
          search := "" }).result = none ∧
    (repositoryFetch (tableStore [])
        { page := 1, itemsPerPage := 10, sort := "evil", descending := false,
          search := "" }).error.isSome = true ∧
    (repositoryFetch (tableStore [])
        { page := 1, itemsPerPage := 10, sort := "evil", descending := false,
          search := "" }).calls = [] :=
  c2_unknown_sort
    { page := 1, itemsPerPage := 10, sort := "evil", descending := false,
      search := "" }
    (tableStore []) (by decide)

/-- Counterexample to C3 as stated: a store where scanning the single
returned row fails, yet Fetch returns a successful (non-nil) result with
a nil error — the Go code discards the value returned by `rows.Scan`, so
a row-scan failure does not abort the fetch; the zero-valued product is
appended instead. -/
theorem c3_scan_failure_not_aborted :
    (repositoryFetch
        { execQuery := fun _ => .ok [Except.error { msg := "scan failure" }]
          execCount := fun _ => .ok 1 }
        { page := 1, itemsPerPage := 10, sort := "name", descending := false,
          search := "" }).error
      = none ∧
    (repositoryFetch
        { execQuery := fun _ => .ok [Except.error { msg := "scan failure" }]
          execCount := fun _ => .ok 1 }
        { page := 1, itemsPerPage := 10, sort := "name", descending := false,
          search := "" }).result
      = some { items := some [zeroProduct], total := 1 } := by
  constructor <;> rfl

/-- Claim C3 as amended: if the SELECT execution fails, or the COUNT
execution or its scan fails, the whole fetch aborts and returns a nil
result with that error (no partial page); but a failure while scanning
an individual row is ignored — the zero-valued product is appended and
the fetch continues to a successful result. -/
theorem c3_amended_aborts (db : FetchStore) (req : PaginationRequestParams)
    (q : BuiltQuery) (qc : BuiltCount)
    (hbuild : paginateBuild "SELECT * FROM product" productColumns
      ["name", "description"] req = .ok (q, qc)) :
    (∀ e, db.execQuery q = .error e →
      repositoryFetch db req
        = { result := none, error := some e, calls := [.select q] }) ∧
    (∀ rows e, db.execQuery q = .ok rows → db.execCount qc = .error e →
      repositoryFetch db req
        = { result := none, error := some e
            calls := [.select q, .count qc] }) ∧
    (∀ rows total, db.execQuery q = .ok rows → db.execCount qc = .ok total →
      repositoryFetch db req
        = { result := some
              { items := some (rows.map fun r => match r with
                  | .ok p => p
                  | .error _ => zeroProduct)
                total := total }
            error := none, calls := [.select q, .count qc] }) := by
  refine ⟨?_, ?_, ?_⟩
  · intro e he
    unfold repositoryFetch
    rw [hbuild]
    simp [he]
  · intro rows e hr he
    unfold repositoryFetch
    rw [hbuild]
    simp [hr, he]
  · intro rows total hr ht
    unfold repositoryFetch
    rw [hbuild]
    simp [hr, ht]

/-- Witness for the amended C3: a failing SELECT aborts the fetch with a
nil result and the store error. -/
theorem c3_amended_aborts_witness :
    repositoryFetch
        { execQuery := fun _ => .error { msg := "connection refused" }
          execCount := fun _ => .ok 0 }
        { page := 1, itemsPerPage := 10, sort := "name", descending := false,
          search := "" }
      = { result := none, error := some { msg := "connection refused" }
          calls := [.select
            { base := "SELECT * FROM product", searchTerm := "",
              searchCols := ["name", "description"], sortField := "name",
              sortDesc := false, offset := 0, limit := 10 }] } :=
  (c3_amended_aborts
    { execQuery := fun _ => .error { msg := "connection refused" }
      execCount := fun _ => .ok 0 }
    { page := 1, itemsPerPage := 10, sort := "name", descending := false,
      search := "" }
    { base := "SELECT * FROM product", searchTerm := "",
      searchCols := ["name", "description"], sortField := "name",
      sortDesc := false, offset := 0, limit := 10 }
    { base := "SELECT * FROM product", searchTerm := "",
      searchCols := ["name", "description"] }
    rfl).1 { msg := "connection refused" } rfl

/-- Claim C4: for every pagination request with a non-empty search term,
every row delivered by the built SELECT matches the case-insensitive
substring filter over name OR description, and a fetch against the
relational semantics of the store returns a total counting exactly the
matching rows, with a nil error. -/
theorem c4_search_filters (req : PaginationRequestParams)
    (table : List Product) (q : BuiltQuery) (qc : BuiltCount)
    (hsearch : req.search ≠ "")
    (hbuild : paginateBuild "SELECT * FROM product" productColumns
      ["name", "description"] req = .ok (q, qc)) :
    ((evalSelect q table).all fun p =>
        containsCI p.name req.search
          || containsCI p.description req.search) = true ∧
    (repositoryFetch (tableStore table) req).result
      = some { items := some (evalSelect q table)
               total := Int.ofNat (table.filter fun p =>
                   containsCI p.name req.search
                     || containsCI p.description req.search).length } ∧
    (repositoryFetch (tableStore table) req).error = none := by
  obtain ⟨hq, hqc⟩ := buildFields req q qc hbuild
  have hfun : rowMatches req.search ["name", "description"]
      = fun p => containsCI p.name req.search
          || containsCI p.description req.search :=
    funext fun p => rowMatches_name_desc req.search p
  refine ⟨?_, ?_, ?_⟩
  · rw [List.all_eq_true]
    intro p hp
    have hmem := mem_evalSelect hp
    rw [hq] at hmem
    simp only [applyFilter, if_neg hsearch] at hmem
    have := (List.mem_filter.mp hmem).2
    rwa [rowMatches_name_desc] at this
  · unfold repositoryFetch
    rw [hbuild]
    simp only [tableStore, List.map_map]
    rw [hqc]
    simp [Function.comp_def, evalCount, applyFilter, hsearch, hfun]
  · unfold repositoryFetch
    rw [hbuild]
    simp [tableStore]

/-- Witness for C4: search `foo` over a three-row table — every
delivered row matches and the total is the matching count, 2. -/
theorem c4_search_filters_witness :
    ("foo" : String) ≠ "" ∧
    (((evalSelect
        { base := "SELECT * FROM product", searchTerm := "foo",
          searchCols := ["name", "description"], sortField := "name",
          sortDesc := false, offset := 0, limit := 2 }
        [{ id := 1, name := "Foobar", price := 2, description := "x" },
         { id := 2, name := "bar", price := 3, description := "has foo inside" },
         { id := 3, name := "baz", price := 4, description := "nope" }]).all fun p =>
        containsCI p.name "foo" || containsCI p.description "foo") = true ∧
      (repositoryFetch
          (tableStore
            [{ id := 1, name := "Foobar", price := 2, description := "x" },
             { id := 2, name := "bar", price := 3, description := "has foo inside" },
             { id := 3, name := "baz", price := 4, description := "nope" }])
          { page := 1, itemsPerPage := 2, sort := "name", descending := false,
            search := "foo" }).result
        = some
            { items := some (evalSelect
                { base := "SELECT * FROM product", searchTerm := "foo",
                  searchCols := ["name", "description"], sortField := "name",
                  sortDesc := false, offset := 0, limit := 2 }
                [{ id := 1, name := "Foobar", price := 2, description := "x" },
                 { id := 2, name := "bar", price := 3, description := "has foo inside" },
                 { id := 3, name := "baz", price := 4, description := "nope" }])
              total := Int.ofNat
                ([{ id := 1, name := "Foobar", price := 2, description := "x" },
                  { id := 2, name := "bar", price := 3, description := "has foo inside" },
                  { id := 3, name := "baz", price := 4, description := "nope" }].filter
                    fun p : Product =>
                      containsCI p.name "foo" || containsCI p.description "foo").length } ∧
      (repositoryFetch
          (tableStore
            [{ id := 1, name := "Foobar", price := 2, description := "x" },
             { id := 2, name := "bar", price := 3, description := "has foo inside" },
             { id := 3, name := "baz", price := 4, description := "nope" }])
          { page := 1, itemsPerPage := 2, sort := "name", descending := false,
            search := "foo" }).error = none) :=
  ⟨by decide,
   c4_search_filters
    { page := 1, itemsPerPage := 2, sort := "name", descending := false,
      search := "foo" }
    [{ id := 1, name := "Foobar", price := 2, description := "x" },
     { id := 2, name := "bar", price := 3, description := "has foo inside" },
     { id := 3, name := "baz", price := 4, description := "nope" }]
    { base := "SELECT * FROM product", searchTerm := "foo",
      searchCols := ["name", "description"], sortField := "name",
      sortDesc := false, offset := 0, limit := 2 }
    { base := "SELECT * FROM product", searchTerm := "foo",
      searchCols := ["name", "description"] }
    (by decide) rfl⟩

/-- Claim C5: for every pagination request whose search term is the
empty string, the search filter applied by both the built SELECT and the
built COUNT is the identity (no filter), and a fetch against the
relational semantics of the store returns the unfiltered row count of
the table as total. -/
theorem c5_empty_search (req : PaginationRequestParams)
    (table : List Product) (q : BuiltQuery) (qc : BuiltCount)
    (hsearch : req.search = "")
    (hbuild : paginateBuild "SELECT * FROM product" productColumns
      ["name", "description"] req = .ok (q, qc)) :
    applyFilter q.searchTerm q.searchCols table = table ∧
    applyFilter qc.searchTerm qc.searchCols table = table ∧
    (repositoryFetch (tableStore table) req).result
      = some { items := some (evalSelect q table)
               total := Int.ofNat table.length } := by
  obtain ⟨hq, hqc⟩ := buildFields req q qc hbuild
  refine ⟨?_, ?_, ?_⟩
  · rw [hq]
    simp [applyFilter, hsearch]
  · rw [hqc]
    simp [applyFilter, hsearch]
  · unfold repositoryFetch
    rw [hbuild]
    simp only [tableStore, List.map_map]
    rw [hqc]
    simp [Function.comp_def, evalCount, applyFilter, hsearch]

/-- Witness for C5: an empty search over a two-row table applies no
filter and reports total 2. -/
theorem c5_empty_search_witness :
    ("" : String) = "" ∧
    (applyFilter "" ["name", "description"]
        [{ id := 1, name := "a", price := 1, description := "x" },
         { id := 2, name := "b", price := 2, description := "y" }]
      = [{ id := 1, name := "a", price := 1, description := "x" },
         { id := 2, name := "b", price := 2, description := "y" }] ∧
     applyFilter "" ["name", "description"]
        [{ id := 1, name := "a", price := 1, description := "x" },
         { id := 2, name := "b", price := 2, description := "y" }]
      = [{ id := 1, name := "a", price := 1, description := "x" },
         { id := 2, name := "b", price := 2, description := "y" }] ∧
     (repositoryFetch
          (tableStore
            [{ id := 1, name := "a", price := 1, description := "x" },
             { id := 2, name := "b", price := 2, description := "y" }])
          { page := 1, itemsPerPage := 5, sort := "id", descending := false,
            search := "" }).result
        = some
            { items := some (evalSelect
                { base := "SELECT * FROM product", searchTerm := "",
                  searchCols := ["name", "description"], sortField := "id",
                  sortDesc := false, offset := 0, limit := 5 }
                [{ id := 1, name := "a", price := 1, description := "x" },
                 { id := 2, name := "b", price := 2, description := "y" }])
              total := Int.ofNat 2 }) :=
  ⟨rfl,
   c5_empty_search
    { page := 1, itemsPerPage := 5, sort := "id", descending := false,
      search := "" }
    [{ id := 1, name := "a", price := 1, description := "x" },
     { id := 2, name := "b", price := 2, description := "y" }]
    { base := "SELECT * FROM product", searchTerm := "",
      searchCols := ["name", "description"], sortField := "id",
      sortDesc := false, offset := 0, limit := 5 }
    { base := "SELECT * FROM product", searchTerm := "",
      searchCols := ["name", "description"] }
    rfl rfl⟩

/-- Claim C6: for every table state and create request, the successful
Create performs exactly one insert-returning round trip, appends exactly
one row, and returns a product whose name, price and description equal
the supplied fields and whose identifier is the server-generated serial
value. -/
theorem c6_create_inserts_and_returns (st : DbState)
    (productRequest : CreateProductRequest) :
    repositoryCreate st none productRequest
      = { state :=
            { rows := st.rows ++
                [{ id := st.nextId, name := productRequest.name,
                   price := productRequest.price,
                   description := productRequest.description }]
              nextId := st.nextId + 1 }
          result := some
            { id := st.nextId, name := productRequest.name,
              price := productRequest.price,
              description := productRequest.description }
          error := none
          roundTrips := 1 } := rfl

/-- Counterexample to C7 as stated: on a decode failure the handler does
set status 500 and write the error message, but the response body is not
the error message as plain text — the JSON encoding of the (nil) product
is appended after it, because the handler never returns early. -/
theorem c7_counterexample :
    statusOf (serviceCreate (none, some { msg := "invalid request body" })
        (fun _ => (none, none))) = 500 ∧
    bodyOf (serviceCreate (none, some { msg := "invalid request body" })
        (fun _ => (none, none)))
      ≠ "invalid request body" := by
  constructor
  · rfl
  · decide

/-- Claim C7 as amended: every error is returned to the immediate caller
as an error value (the usecase propagates the repository error
unchanged), and for both error kinds — decode failure and
usecase/storage failure — both the Create and the Fetch handler respond
with effective status 500 and a body beginning with the error message as
plain text; but neither handler stops, so for every error kind the body
is strictly more than the error message (the JSON-encoded result follows
it). -/
theorem c7_amended_uniform_500 (e : Err) (r : CreateProductRequest)
    (pag : PaginationRequestParams)
    (usecase : Option CreateProductRequest → Option Product × Option Err)
    (fetchUsecase : Option PaginationRequestParams →
      Option (Pagination (List Product)) × Option Err)
    (repo : Option CreateProductRequest → Option Product × Option Err)
    (hrepo : (repo (some r)).2 = some e)
    (husecase : (usecase (some r)).2 = some e)
    (hfetch : (fetchUsecase (some pag)).2 = some e) :
    usecaseCreate repo (some r) = (none, some e) ∧
    statusOf (serviceCreate (none, some e) usecase) = 500 ∧
    strBegins (bodyOf (serviceCreate (none, some e) usecase)) e.msg = true ∧
    bodyOf (serviceCreate (none, some e) usecase) ≠ e.msg ∧
    statusOf (serviceCreate (some r, none) usecase) = 500 ∧
    strBegins (bodyOf (serviceCreate (some r, none) usecase)) e.msg = true ∧
    bodyOf (serviceCreate (some r, none) usecase) ≠ e.msg ∧
    statusOfFetch (serviceFetch (none, some e) fetchUsecase) = 500 ∧
    strBegins (bodyOfFetch (serviceFetch (none, some e) fetchUsecase)) e.msg
      = true ∧
    bodyOfFetch (serviceFetch (none, some e) fetchUsecase) ≠ e.msg ∧
    statusOfFetch (serviceFetch (some pag, none) fetchUsecase) = 500 ∧
    strBegins (bodyOfFetch (serviceFetch (some pag, none) fetchUsecase)) e.msg
      = true ∧
    bodyOfFetch (serviceFetch (some pag, none) fetchUsecase) ≠ e.msg := by
  refine ⟨?_, ?_, ?_, ?_, ?_, ?_, ?_, ?_, ?_, ?_, ?_, ?_, ?_⟩
  · unfold usecaseCreate usecasePass
    rw [hrepo]
  · rcases hu : usecase none with ⟨prod, err2⟩
    cases err2 <;> simp [serviceCreate, statusOf, hu]
  · rcases hu : usecase none with ⟨prod, err2⟩
    cases err2 <;> simp [serviceCreate, bodyOf, hu] <;>
      exact strBegins_append _ _
  · rcases hu : usecase none with ⟨prod, err2⟩
    intro heq
    have hlen := congrArg String.length heq
    cases err2 <;> simp [serviceCreate, bodyOf, hu, String.length_append] at hlen <;>
      have := encodeJSON_length prod <;> omega
  · simp [serviceCreate, statusOf, husecase]
  · simp [serviceCreate, bodyOf, husecase]
    exact strBegins_append _ _
  · intro heq
    have hlen := congrArg String.length heq
    simp [serviceCreate, bodyOf, husecase, String.length_append] at hlen
    have := encodeJSON_length (usecase (some r)).1
    omega
  · rcases hu : fetchUsecase none with ⟨page, err2⟩
    cases err2 <;> simp [serviceFetch, statusOfFetch, hu]
  · rcases hu : fetchUsecase none with ⟨page, err2⟩
    cases err2 <;> simp [serviceFetch, bodyOfFetch, hu] <;>
      exact strBegins_append _ _
  · rcases hu : fetchUsecase none with ⟨page, err2⟩
    intro heq
    have hlen := congrArg String.length heq
    cases err2 <;> simp [serviceFetch, bodyOfFetch, hu, String.length_append] at hlen <;>
      have := encodePage_length page <;> omega
  · simp [serviceFetch, statusOfFetch, hfetch]
  · simp [serviceFetch, bodyOfFetch, hfetch]
    exact strBegins_append _ _
  · intro heq
    have hlen := congrArg String.length heq
    simp [serviceFetch, bodyOfFetch, hfetch, String.length_append] at hlen
    have := encodePage_length (fetchUsecase (some pag)).1
    omega

/-- Witness for the amended C7 with the storage error message, on both
handlers and both error kinds. -/
theorem c7_amended_uniform_500_witness :
    usecaseCreate (fun _ => (none, some { msg := "storage is down" }))
        (some { name := "A", price := 1, description := "d" })
      = (none, some { msg := "storage is down" }) ∧
    statusOf (serviceCreate (none, some { msg := "storage is down" })
        (fun _ => (none, some { msg := "storage is down" }))) = 500 ∧
    strBegins (bodyOf (serviceCreate (none, some { msg := "storage is down" })
        (fun _ => (none, some { msg := "storage is down" }))))
        "storage is down" = true ∧
    bodyOf (serviceCreate (none, some { msg := "storage is down" })
        (fun _ => (none, some { msg := "storage is down" })))
      ≠ "storage is down" ∧
    statusOf (serviceCreate
        (some { name := "A", price := 1, description := "d" }, none)
        (fun _ => (none, some { msg := "storage is down" }))) = 500 ∧
    strBegins (bodyOf (serviceCreate
        (some { name := "A", price := 1, description := "d" }, none)
        (fun _ => (none, some { msg := "storage is down" }))))
        "storage is down" = true ∧
    bodyOf (serviceCreate
        (some { name := "A", price := 1, description := "d" }, none)
        (fun _ => (none, some { msg := "storage is down" })))
      ≠ "storage is down" ∧
    statusOfFetch (serviceFetch (none, some { msg := "storage is down" })
        (fun _ => (none, some { msg := "storage is down" }))) = 500 ∧
    strBegins (bodyOfFetch (serviceFetch
        (none, some { msg := "storage is down" })
        (fun _ => (none, some { msg := "storage is down" }))))
        "storage is down" = true ∧
    bodyOfFetch (serviceFetch (none, some { msg := "storage is down" })
        (fun _ => (none, some { msg := "storage is down" })))
      ≠ "storage is down" ∧
    statusOfFetch (serviceFetch
        (some { page := 1, itemsPerPage := 5, sort := "id", descending := false, search := "" }, none)
        (fun _ => (none, some { msg := "storage is down" }))) = 500 ∧
    strBegins (bodyOfFetch (serviceFetch
        (some { page := 1, itemsPerPage := 5, sort := "id", descending := false, search := "" }, none)
        (fun _ => (none, some { msg := "storage is down" }))))
        "storage is down" = true ∧
    bodyOfFetch (serviceFetch
        (some { page := 1, itemsPerPage := 5, sort := "id", descending := false, search := "" }, none)
        (fun _ => (none, some { msg := "storage is down" })))
      ≠ "storage is down" :=
  c7_amended_uniform_500 { msg := "storage is down" }
    { name := "A", price := 1, description := "d" }
    { page := 1, itemsPerPage := 5, sort := "id", descending := false, search := "" }
    (fun _ => (none, some { msg := "storage is down" }))
    (fun _ => (none, some { msg := "storage is down" }))
    (fun _ => (none, some { msg := "storage is down" }))
    rfl rfl rfl

/-- Claim C8: for every decode failure, the HTTP Create handler writes
status 500 and the error message but does not stop: its full trace is
exactly the 500 header and message, then a usecase call with a nil
request, then the error events of that call, then the JSON encoding of
the resulting product into the same response. -/
theorem c8_decode_failure_continues (e : Err)
    (usecase : Option CreateProductRequest → Option Product × Option Err) :
    serviceCreate (none, some e) usecase
      = [.writeHeader 500, .write e.msg, .callUsecase none]
        ++ (match (usecase none).2 with
            | some e2 => [RespEvent.writeHeader 500, RespEvent.write e2.msg]
            | none => [])
        ++ [.encode (usecase none).1] := by
  unfold serviceCreate
  rcases hu : usecase none with ⟨prod, err2⟩
  cases err2 <;> simp [hu]

/-- Claim C9: for every repository behavior satisfying the Go invariant
that an error is accompanied by a nil result, the usecase Create and
Fetch return exactly the pair produced by the repository, unchanged. -/
theorem c9_usecase_pass_through
    (repoCreate : Option CreateProductRequest → Option Product × Option Err)
    (repoFetch : PaginationRequestParams →
      Option (Pagination (List Product)) × Option Err)
    (req : Option CreateProductRequest) (pag : PaginationRequestParams)
    (hC : (repoCreate req).2.isSome = true → (repoCreate req).1 = none)
    (hF : (repoFetch pag).2.isSome = true → (repoFetch pag).1 = none) :
    usecaseCreate repoCreate req = repoCreate req ∧
    usecaseFetch repoFetch pag = repoFetch pag := by
  constructor
  · unfold usecaseCreate usecasePass
    rcases h : (repoCreate req).2 with _ | e
    · simp [h]
    · have h1 : (repoCreate req).1 = none := hC (by simp [h])
      simp [h]
      rw [Prod.ext_iff]
      simp [h, h1]
  · unfold usecaseFetch usecasePass
    rcases h : (repoFetch pag).2 with _ | e
    · simp [h]
    · have h1 : (repoFetch pag).1 = none := hF (by simp [h])
      simp [h]
      rw [Prod.ext_iff]
      simp [h, h1]

/-- Witness for C9: a succeeding create repository and a failing fetch
repository both pass through unchanged. -/
theorem c9_usecase_pass_through_witness :
    usecaseCreate
        (fun _ => (some { id := 7, name := "A", price := 1, description := "d" },
          none)) none
      = (fun _ =>
          (some ({ id := 7, name := "A", price := 1, description := "d" } : Product),
            none))
          (none : Option CreateProductRequest) ∧
    usecaseFetch (fun _ => (none, some { msg := "storage is down" }))
        { page := 1, itemsPerPage := 5, sort := "id", descending := false,
          search := "" }
      = (fun _ => ((none : Option (Pagination (List Product))),
            some ({ msg := "storage is down" } : Err)))
          ({ page := 1, itemsPerPage := 5, sort := "id", descending := false, search := "" } : PaginationRequestParams) :=
  c9_usecase_pass_through
    (fun _ => (some { id := 7, name := "A", price := 1, description := "d" },
      none))
    (fun _ => (none, some { msg := "storage is down" }))
    none
    { page := 1, itemsPerPage := 5, sort := "id", descending := false,
      search := "" }
    (by decide) (by decide)

/-- Claim C10: for every store behavior and every pagination request,
exactly one of the fetch result and the fetch error is non-nil, and
whenever the result is present its items field is a non-nil slice (the
accumulator starts as the non-nil empty slice). -/
theorem c10_result_error_discipline (db : FetchStore)
    (pag : PaginationRequestParams) :
    (repositoryFetch db pag).result.isSome
      = !(repositoryFetch db pag).error.isSome ∧
    ((repositoryFetch db pag).result.all fun r => r.items.isSome) = true := by
  unfold repositoryFetch
  rcases hb : paginateBuild "SELECT * FROM product" productColumns
      ["name", "description"] pag with e | pr
  · simp
  · obtain ⟨q, qc⟩ := pr
    rcases hq : db.execQuery q with e | rows
    · simp [hq]
    · rcases hc : db.execCount qc with e | total <;> simp [hq, hc]

end CleanArch
